import Mathlib

/-!
Verification of the SRID-propagation codec in `src/types.rs` of
`diesel-geography`.

The repository converts between a domain value model (`GeogPoint`,
`GeogPointZ`, `GeogLineString`, `GeogLineStringZ`, `GeogPolygon`) and the
external postgis EWKB value model (`Point`, `PointZ`, `LineString`,
`LineStringZ`, `Polygon`), and implements the diesel `FromSql` / `ToSql`
hooks on top of those conversions.  Coordinates are `f64` values that the
code only moves, never computes with; they are modelled as `Float`.
`i32` SRIDs are modelled as `Int` (the code only copies them).
-/

/-- External postgis `ewkb::Point`: `x`, `y` and an optional SRID. -/
structure Point where
  x : Float
  y : Float
  srid : Option Int

/-- External postgis `ewkb::PointZ`: `x`, `y`, `z` and an optional SRID. -/
structure PointZ where
  x : Float
  y : Float
  z : Float
  srid : Option Int

/-- External postgis `ewkb::LineString`: a sequence of `Point`s and an SRID. -/
structure LineString where
  points : List Point
  srid : Option Int

/-- External postgis `ewkb::LineStringZ`. -/
structure LineStringZ where
  points : List PointZ
  srid : Option Int

/-- External postgis `ewkb::Polygon`: a sequence of rings and an SRID. -/
structure Polygon where
  rings : List LineString
  srid : Option Int

/-- Domain type `GeogPoint` (types.rs lines 14-18). -/
structure GeogPoint where
  x : Float
  y : Float
  srid : Option Int

/-- Domain type `GeogPointZ` (types.rs lines 55-60). -/
structure GeogPointZ where
  x : Float
  y : Float
  z : Float
  srid : Option Int

/-- Domain type `GeogLineString` (types.rs lines 96-99). -/
structure GeogLineString where
  points : List GeogPoint
  srid : Option Int

/-- Domain type `GeogLineStringZ` (types.rs lines 161-164). -/
structure GeogLineStringZ where
  points : List GeogPointZ
  srid : Option Int

/-- Domain type `GeogPolygon` (types.rs lines 228-231). -/
structure GeogPolygon where
  rings : List GeogLineString
  srid : Option Int

/-- `impl From<Point> for GeogPoint` (types.rs lines 20-25): field-wise move. -/
def GeogPoint.fromPoint (p : Point) : GeogPoint :=
  { x := p.x, y := p.y, srid := p.srid }

/-- `impl From<GeogPoint> for Point` (types.rs lines 26-31): field-wise move. -/
def Point.fromGeogPoint (p : GeogPoint) : Point :=
  { x := p.x, y := p.y, srid := p.srid }

/-- `impl From<PointZ> for GeogPointZ` (types.rs lines 62-67). -/
def GeogPointZ.fromPointZ (p : PointZ) : GeogPointZ :=
  { x := p.x, y := p.y, z := p.z, srid := p.srid }

/-- `impl From<GeogPointZ> for PointZ` (types.rs lines 68-73). -/
def PointZ.fromGeogPointZ (p : GeogPointZ) : PointZ :=
  { x := p.x, y := p.y, z := p.z, srid := p.srid }

/-- `impl From<LineString> for GeogLineString` (types.rs lines 101-120):
every converted point receives the wrapper-level `srid`. -/
def GeogLineString.fromLineString (p : LineString) : GeogLineString :=
  { points := p.points.map (fun q => { x := q.x, y := q.y, srid := p.srid }),
    srid := p.srid }

/-- `impl From<GeogLineString> for LineString` (types.rs lines 121-138):
every converted point receives the top-level `srid`. -/
def LineString.fromGeogLineString (p : GeogLineString) : LineString :=
  { points := p.points.map (fun q => { x := q.x, y := q.y, srid := p.srid }),
    srid := p.srid }

/-- `impl From<LineStringZ> for GeogLineStringZ` (types.rs lines 166-185). -/
def GeogLineStringZ.fromLineStringZ (p : LineStringZ) : GeogLineStringZ :=
  { points := p.points.map (fun q => { x := q.x, y := q.y, z := q.z, srid := p.srid }),
    srid := p.srid }

/-- `impl From<GeogLineStringZ> for LineStringZ` (types.rs lines 186-205). -/
def LineStringZ.fromGeogLineStringZ (p : GeogLineStringZ) : LineStringZ :=
  { points := p.points.map (fun q => { x := q.x, y := q.y, z := q.z, srid := p.srid }),
    srid := p.srid }

/-- `impl From<Polygon> for GeogPolygon` (types.rs lines 233-257): each
point of each ring receives the polygon-level `srid`, while each produced
ring keeps the corresponding external ring's own `srid` (`line.srid`). -/
def GeogPolygon.fromPolygon (p : Polygon) : GeogPolygon :=
  { rings := p.rings.map (fun line =>
      { points := line.points.map (fun q => { x := q.x, y := q.y, srid := p.srid }),
        srid := line.srid }),
    srid := p.srid }

/-- `impl From<GeogPolygon> for Polygon` (types.rs lines 258-282): each
point of each ring receives the polygon-level `srid`, while each produced
ring keeps the corresponding `GeogLineString`'s own `srid` (`line.srid`). -/
def Polygon.fromGeogPolygon (p : GeogPolygon) : Polygon :=
  { rings := p.rings.map (fun line =>
      { points := line.points.map (fun q => { x := q.x, y := q.y, srid := p.srid }),
        srid := line.srid }),
    srid := p.srid }

/-- Error taxonomy of the decode hooks: `unexpectedNull` models the error
produced by diesel's `not_none!` macro on a `None` byte slice; `reader e`
models an error propagated from the external EWKB reader by the `?`
operator.  `ε` is the external reader's error type. -/
inductive DecodeError (ε : Type) where
  | unexpectedNull : DecodeError ε
  | reader : ε → DecodeError ε
deriving DecidableEq

/-- diesel's `IsNull` marker returned by `to_sql`. -/
inductive IsNull where
  | yes : IsNull
  | no : IsNull
deriving DecidableEq

/-- `FromSql<Geography, Pg> for GeogPoint::from_sql` (types.rs lines 33-41).
The external `Point::read_ewkb` is out of scope of this repository and is
passed in as the function `read` over the raw byte sequence. -/
def GeogPoint.fromSql {ε : Type} (read : List UInt8 → Except ε Point)
    (bytes : Option (List UInt8)) : Except (DecodeError ε) GeogPoint :=
  match bytes with
  | none => .error .unexpectedNull
  | some b =>
    match read b with
    | .error e => .error (.reader e)
    | .ok p => .ok (GeogPoint.fromPoint p)

/-- `FromSql<Geography, Pg> for GeogPointZ::from_sql` (types.rs lines 75-83). -/
def GeogPointZ.fromSql {ε : Type} (read : List UInt8 → Except ε PointZ)
    (bytes : Option (List UInt8)) : Except (DecodeError ε) GeogPointZ :=
  match bytes with
  | none => .error .unexpectedNull
  | some b =>
    match read b with
    | .error e => .error (.reader e)
    | .ok p => .ok (GeogPointZ.fromPointZ p)

/-- `FromSql<Geography, Pg> for GeogLineString::from_sql` (types.rs lines 140-148). -/
def GeogLineString.fromSql {ε : Type} (read : List UInt8 → Except ε LineString)
    (bytes : Option (List UInt8)) : Except (DecodeError ε) GeogLineString :=
  match bytes with
  | none => .error .unexpectedNull
  | some b =>
    match read b with
    | .error e => .error (.reader e)
    | .ok p => .ok (GeogLineString.fromLineString p)

/-- `FromSql<Geography, Pg> for GeogLineStringZ::from_sql` (types.rs lines 207-215). -/
def GeogLineStringZ.fromSql {ε : Type} (read : List UInt8 → Except ε LineStringZ)
    (bytes : Option (List UInt8)) : Except (DecodeError ε) GeogLineStringZ :=
  match bytes with
  | none => .error .unexpectedNull
  | some b =>
    match read b with
    | .error e => .error (.reader e)
    | .ok p => .ok (GeogLineStringZ.fromLineStringZ p)

/-- `FromSql<Geography, Pg> for GeogPolygon::from_sql` (types.rs lines 284-292). -/
def GeogPolygon.fromSql {ε : Type} (read : List UInt8 → Except ε Polygon)
    (bytes : Option (List UInt8)) : Except (DecodeError ε) GeogPolygon :=
  match bytes with
  | none => .error .unexpectedNull
  | some b =>
    match read b with
    | .error e => .error (.reader e)
    | .ok p => .ok (GeogPolygon.fromPolygon p)

/-- `ToSql<Geography, Pg> for GeogPoint::to_sql` (types.rs lines 43-49).
The external `write_ewkb` call (EWKB serialisation into the sink `out`) is
out of scope of this repository and is passed in as the function `write`;
its error is propagated by `?`, and success yields `Ok(IsNull::No)`. -/
def GeogPoint.toSql {ε : Type} (write : Point → Except ε Unit)
    (v : GeogPoint) : Except ε IsNull :=
  match write (Point.fromGeogPoint v) with
  | .error e => .error e
  | .ok _ => .ok IsNull.no

/-- `ToSql<Geography, Pg> for GeogPointZ::to_sql` (types.rs lines 85-91). -/
def GeogPointZ.toSql {ε : Type} (write : PointZ → Except ε Unit)
    (v : GeogPointZ) : Except ε IsNull :=
  match write (PointZ.fromGeogPointZ v) with
  | .error e => .error e
  | .ok _ => .ok IsNull.no

/-- `ToSql<Geography, Pg> for GeogLineString::to_sql` (types.rs lines 150-156). -/
def GeogLineString.toSql {ε : Type} (write : LineString → Except ε Unit)
    (v : GeogLineString) : Except ε IsNull :=
  match write (LineString.fromGeogLineString v) with
  | .error e => .error e
  | .ok _ => .ok IsNull.no

/-- `ToSql<Geography, Pg> for GeogLineStringZ::to_sql` (types.rs lines 217-223). -/
def GeogLineStringZ.toSql {ε : Type} (write : LineStringZ → Except ε Unit)
    (v : GeogLineStringZ) : Except ε IsNull :=
  match write (LineStringZ.fromGeogLineStringZ v) with
  | .error e => .error e
  | .ok _ => .ok IsNull.no

/-- `ToSql<Geography, Pg> for GeogPolygon::to_sql` (types.rs lines 294-300). -/
def GeogPolygon.toSql {ε : Type} (write : Polygon → Except ε Unit)
    (v : GeogPolygon) : Except ε IsNull :=
  match write (Polygon.fromGeogPolygon v) with
  | .error e => .error e
  | .ok _ => .ok IsNull.no

/-- C5: for every `GeogPoint` and `GeogPointZ`, conversion to the external
`Point`/`PointZ` and back is the identity in both directions: `x`, `y`
(`z` where present) and `srid` are carried unchanged. -/
theorem point_roundtrip_identity :
    (∀ p : GeogPoint, GeogPoint.fromPoint (Point.fromGeogPoint p) = p) ∧
    (∀ p : Point, Point.fromGeogPoint (GeogPoint.fromPoint p) = p) ∧
    (∀ p : GeogPointZ, GeogPointZ.fromPointZ (PointZ.fromGeogPointZ p) = p) ∧
    (∀ p : PointZ, PointZ.fromGeogPointZ (GeogPointZ.fromPointZ p) = p) :=
  ⟨fun _ => rfl, fun _ => rfl, fun _ => rfl, fun _ => rfl⟩

/-- C6: encoding a `GeogLineString` (or `GeogLineStringZ`) and decoding it
back preserves the number of points and the ordered coordinates. -/
theorem linestring_roundtrip_preserves_points :
    (∀ l : GeogLineString,
      (GeogLineString.fromLineString (LineString.fromGeogLineString l)).points.length
        = l.points.length ∧
      (GeogLineString.fromLineString (LineString.fromGeogLineString l)).points.map
          (fun q => (q.x, q.y))
        = l.points.map (fun q => (q.x, q.y))) ∧
    (∀ l : GeogLineStringZ,
      (GeogLineStringZ.fromLineStringZ (LineStringZ.fromGeogLineStringZ l)).points.length
        = l.points.length ∧
      (GeogLineStringZ.fromLineStringZ (LineStringZ.fromGeogLineStringZ l)).points.map
          (fun q => (q.x, q.y, q.z))
        = l.points.map (fun q => (q.x, q.y, q.z))) := by
  constructor <;> intro l <;>
    simp [GeogLineString.fromLineString, LineString.fromGeogLineString,
      GeogLineStringZ.fromLineStringZ, LineStringZ.fromGeogLineStringZ,
      List.map_map, Function.comp]

/-- C7: encoding a `GeogPolygon` and decoding it back preserves the ring
count, the ring order, and within each ring the number, order and
coordinates of the points. -/
theorem polygon_roundtrip_preserves_rings :
    ∀ p : GeogPolygon,
      (GeogPolygon.fromPolygon (Polygon.fromGeogPolygon p)).rings.length
        = p.rings.length ∧
      (GeogPolygon.fromPolygon (Polygon.fromGeogPolygon p)).rings.map
          (fun r => r.points.map (fun q => (q.x, q.y)))
        = p.rings.map (fun r => r.points.map (fun q => (q.x, q.y))) := by
  intro p
  simp [GeogPolygon.fromPolygon, Polygon.fromGeogPolygon,
    List.map_map, Function.comp]

/-- C2: encoding a `GeogLineString` (or `GeogLineStringZ`) overwrites every
contained point's `srid` with the line string's top-level `srid`, whatever
the point's own `srid` held beforehand; the conversion is total, so no
error is ever raised on a mismatch. -/
theorem linestring_encode_overwrites_point_srid :
    (∀ (l : GeogLineString), ∀ q ∈ (LineString.fromGeogLineString l).points,
      q.srid = l.srid) ∧
    (∀ (l : GeogLineStringZ), ∀ q ∈ (LineStringZ.fromGeogLineStringZ l).points,
      q.srid = l.srid) := by
  constructor <;> intro l q hq <;>
    simp only [LineString.fromGeogLineString, LineStringZ.fromGeogLineStringZ,
      List.mem_map] at hq <;>
    obtain ⟨p, _, rfl⟩ := hq <;> rfl

/-- Witness for C2: a line string with srid 4326 whose two points carry the
heterogeneous srids 1 and 2 encodes both points with srid 4326. -/
theorem linestring_encode_overwrites_point_srid_witness :
    (({ x := 0, y := 0, srid := some 4326 } : Point).srid = some 4326) ∧
    (({ x := 0, y := 0, z := 0, srid := some 4326 } : PointZ).srid = some 4326) :=
  ⟨linestring_encode_overwrites_point_srid.1
      ⟨[⟨0, 0, some 1⟩, ⟨0, 0, some 2⟩], some 4326⟩
      ⟨0, 0, some 4326⟩ (List.Mem.head _),
    linestring_encode_overwrites_point_srid.2
      ⟨[⟨0, 0, 0, some 1⟩, ⟨0, 0, 0, some 2⟩], some 4326⟩
      ⟨0, 0, 0, some 4326⟩ (List.Mem.head _)⟩

/-- C3: decoding an external `LineString` (or `LineStringZ`) stamps the
resulting top-level `srid` with the wrapper's `srid` and also copies that
same wrapper-level value into every constructed point's `srid` field,
discarding the per-point srids of the external value. -/
theorem linestring_decode_stamps_wrapper_srid :
    (∀ l : LineString,
      (GeogLineString.fromLineString l).srid = l.srid ∧
      ∀ q ∈ (GeogLineString.fromLineString l).points, q.srid = l.srid) ∧
    (∀ l : LineStringZ,
      (GeogLineStringZ.fromLineStringZ l).srid = l.srid ∧
      ∀ q ∈ (GeogLineStringZ.fromLineStringZ l).points, q.srid = l.srid) := by
  constructor <;> intro l <;> refine ⟨rfl, fun q hq => ?_⟩ <;>
    simp only [GeogLineString.fromLineString, GeogLineStringZ.fromLineStringZ,
      List.mem_map] at hq <;>
    obtain ⟨p, _, rfl⟩ := hq <;> rfl

/-- Witness for C3: decoding a wrapper with srid 4326 whose points carried
srids 7 and 8 yields top-level srid 4326 and a point stamped with 4326. -/
theorem linestring_decode_stamps_wrapper_srid_witness :
    ((GeogLineString.fromLineString ⟨[⟨0, 0, some 7⟩, ⟨0, 0, some 8⟩], some 4326⟩).srid
        = some 4326 ∧
      ({ x := 0, y := 0, srid := some 4326 } : GeogPoint).srid = some 4326) ∧
    ((GeogLineStringZ.fromLineStringZ ⟨[⟨0, 0, 0, some 7⟩], some 4326⟩).srid
        = some 4326 ∧
      ({ x := 0, y := 0, z := 0, srid := some 4326 } : GeogPointZ).srid = some 4326) :=
  ⟨⟨(linestring_decode_stamps_wrapper_srid.1
        ⟨[⟨0, 0, some 7⟩, ⟨0, 0, some 8⟩], some 4326⟩).1,
    (linestring_decode_stamps_wrapper_srid.1
        ⟨[⟨0, 0, some 7⟩, ⟨0, 0, some 8⟩], some 4326⟩).2
      ⟨0, 0, some 4326⟩ (List.Mem.head _)⟩,
   ⟨(linestring_decode_stamps_wrapper_srid.2
        ⟨[⟨0, 0, 0, some 7⟩], some 4326⟩).1,
    (linestring_decode_stamps_wrapper_srid.2
        ⟨[⟨0, 0, 0, some 7⟩], some 4326⟩).2
      ⟨0, 0, 0, some 4326⟩ (List.Mem.head _)⟩⟩

/-- C4: decoding an external `Polygon` stamps the polygon's top-level
`srid` into every constructed point of every ring, identically across
rings, discarding the external per-point srids. -/
theorem polygon_decode_stamps_points_with_polygon_srid :
    ∀ p : Polygon, ∀ r ∈ (GeogPolygon.fromPolygon p).rings,
      ∀ q ∈ r.points, q.srid = p.srid := by
  intro p r hr q hq
  simp only [GeogPolygon.fromPolygon, List.mem_map] at hr
  obtain ⟨line, _, rfl⟩ := hr
  simp only [List.mem_map] at hq
  obtain ⟨s, _, rfl⟩ := hq
  rfl

/-- Witness for C4: decoding a polygon with srid 4326 containing one ring
of srid 9 with one point of srid 7 stamps that point with 4326. -/
theorem polygon_decode_stamps_points_with_polygon_srid_witness :
    ({ x := 0, y := 0, srid := some 4326 } : GeogPoint).srid = some 4326 :=
  polygon_decode_stamps_points_with_polygon_srid
    ⟨[⟨[⟨0, 0, some 7⟩], some 9⟩], some 4326⟩
    ⟨[⟨0, 0, some 4326⟩], some 9⟩ (List.Mem.head _)
    ⟨0, 0, some 4326⟩ (List.Mem.head _)

/-- C1: encoding a `GeogPolygon` assigns the outer polygon's top-level
`srid` to every point inside every ring, while each produced ring's own
top-level `srid` is copied unchanged from the corresponding
`GeogLineString`; consequently some polygon whose ring srid differs from
the polygon srid encodes to a `Polygon` containing a ring whose declared
srid disagrees with the srid of its own points. -/
theorem polygon_encode_srid_inconsistency :
    (∀ gp : GeogPolygon,
      (Polygon.fromGeogPolygon gp).rings.map (fun r => r.srid)
        = gp.rings.map (fun r => r.srid) ∧
      ∀ r ∈ (Polygon.fromGeogPolygon gp).rings, ∀ q ∈ r.points,
        q.srid = gp.srid) ∧
    (∃ gp : GeogPolygon, ∃ r ∈ (Polygon.fromGeogPolygon gp).rings,
      ∃ q ∈ r.points, r.srid ≠ q.srid) := by
  constructor
  · intro gp
    constructor
    · simp [Polygon.fromGeogPolygon, List.map_map, Function.comp]
    · intro r hr q hq
      simp only [Polygon.fromGeogPolygon, List.mem_map] at hr
      obtain ⟨line, _, rfl⟩ := hr
      simp only [List.mem_map] at hq
      obtain ⟨s, _, rfl⟩ := hq
      rfl
  · refine ⟨⟨[⟨[⟨0, 0, none⟩], some 1⟩], some 4326⟩,
      ⟨[⟨0, 0, some 4326⟩], some 1⟩, List.Mem.head _,
      ⟨0, 0, some 4326⟩, List.Mem.head _, ?_⟩
    simp

/-- Witness for C1: on a polygon of srid 4326 with one ring of srid 1, the
encoded ring srids are copied (still `[some 1]`) and the encoded point
carries the polygon's srid 4326. -/
theorem polygon_encode_srid_inconsistency_witness :
    ((Polygon.fromGeogPolygon ⟨[⟨[⟨0, 0, none⟩], some 1⟩], some 4326⟩).rings.map
        (fun r => r.srid) = [some 1] ∧
      ({ x := 0, y := 0, srid := some 4326 } : Point).srid = some 4326) :=
  ⟨(polygon_encode_srid_inconsistency.1
      ⟨[⟨[⟨0, 0, none⟩], some 1⟩], some 4326⟩).1,
   (polygon_encode_srid_inconsistency.1
      ⟨[⟨[⟨0, 0, none⟩], some 1⟩], some 4326⟩).2
     ⟨[⟨0, 0, some 4326⟩], some 1⟩ (List.Mem.head _)
     ⟨0, 0, some 4326⟩ (List.Mem.head _)⟩

/-- C10: decoding an external `Polygon` copies each constructed ring's own
top-level `srid` from the corresponding external ring (not from the
polygon), so some external polygon whose ring srid differs from its
polygon srid decodes to a `GeogPolygon` containing a ring whose srid
disagrees both with the polygon's srid and with its own points' srids. -/
theorem polygon_decode_ring_srid_from_external_ring :
    (∀ p : Polygon,
      (GeogPolygon.fromPolygon p).rings.map (fun r => r.srid)
        = p.rings.map (fun r => r.srid)) ∧
    (∃ p : Polygon, ∃ r ∈ (GeogPolygon.fromPolygon p).rings,
      r.srid ≠ (GeogPolygon.fromPolygon p).srid ∧
      ∃ q ∈ r.points, r.srid ≠ q.srid) := by
  constructor
  · intro p
    simp [GeogPolygon.fromPolygon, List.map_map, Function.comp]
  · refine ⟨⟨[⟨[⟨0, 0, some 2⟩], some 1⟩], some 4326⟩,
      ⟨[⟨0, 0, some 4326⟩], some 1⟩, List.Mem.head _, by simp [GeogPolygon.fromPolygon],
      ⟨0, 0, some 4326⟩, List.Mem.head _, by simp⟩

/-- C8: for every shape kind, the decode hook on an absent input (`none`,
modelling SQL NULL) fails with the null decode error, whatever the
external reader does; it never returns a shape. -/
theorem from_sql_absent_always_fails :
    ∀ (ε : Type) (rp : List UInt8 → Except ε Point)
      (rpz : List UInt8 → Except ε PointZ)
      (rls : List UInt8 → Except ε LineString)
      (rlsz : List UInt8 → Except ε LineStringZ)
      (rpoly : List UInt8 → Except ε Polygon),
      GeogPoint.fromSql rp none = .error .unexpectedNull ∧
      GeogPointZ.fromSql rpz none = .error .unexpectedNull ∧
      GeogLineString.fromSql rls none = .error .unexpectedNull ∧
      GeogLineStringZ.fromSql rlsz none = .error .unexpectedNull ∧
      GeogPolygon.fromSql rpoly none = .error .unexpectedNull :=
  fun _ _ _ _ _ _ => ⟨rfl, rfl, rfl, rfl, rfl⟩

/-- C9: for every shape kind and value, the encode hook fails exactly when
the sink's write fails, propagating the sink's error unmodified; whenever
the write succeeds it returns `Ok(IsNull::No)`. -/
theorem to_sql_sink_result :
    ∀ (ε : Type),
      (∀ (w : Point → Except ε Unit) (v : GeogPoint),
        (w (Point.fromGeogPoint v) = .ok () → GeogPoint.toSql w v = .ok IsNull.no) ∧
        (∀ e, w (Point.fromGeogPoint v) = .error e → GeogPoint.toSql w v = .error e)) ∧
      (∀ (w : PointZ → Except ε Unit) (v : GeogPointZ),
        (w (PointZ.fromGeogPointZ v) = .ok () → GeogPointZ.toSql w v = .ok IsNull.no) ∧
        (∀ e, w (PointZ.fromGeogPointZ v) = .error e → GeogPointZ.toSql w v = .error e)) ∧
      (∀ (w : LineString → Except ε Unit) (v : GeogLineString),
        (w (LineString.fromGeogLineString v) = .ok () →
          GeogLineString.toSql w v = .ok IsNull.no) ∧
        (∀ e, w (LineString.fromGeogLineString v) = .error e →
          GeogLineString.toSql w v = .error e)) ∧
      (∀ (w : LineStringZ → Except ε Unit) (v : GeogLineStringZ),
        (w (LineStringZ.fromGeogLineStringZ v) = .ok () →
          GeogLineStringZ.toSql w v = .ok IsNull.no) ∧
        (∀ e, w (LineStringZ.fromGeogLineStringZ v) = .error e →
          GeogLineStringZ.toSql w v = .error e)) ∧
      (∀ (w : Polygon → Except ε Unit) (v : GeogPolygon),
        (w (Polygon.fromGeogPolygon v) = .ok () →
          GeogPolygon.toSql w v = .ok IsNull.no) ∧
        (∀ e, w (Polygon.fromGeogPolygon v) = .error e →
          GeogPolygon.toSql w v = .error e)) := by
  intro ε
  refine ⟨fun w v => ⟨fun h => ?_, fun e h => ?_⟩,
    fun w v => ⟨fun h => ?_, fun e h => ?_⟩,
    fun w v => ⟨fun h => ?_, fun e h => ?_⟩,
    fun w v => ⟨fun h => ?_, fun e h => ?_⟩,
    fun w v => ⟨fun h => ?_, fun e h => ?_⟩⟩ <;>
  simp [GeogPoint.toSql, GeogPointZ.toSql, GeogLineString.toSql,
    GeogLineStringZ.toSql, GeogPolygon.toSql, h]

/-- Witness for C9: with a sink that accepts the write, each shape's hook
returns `Ok(IsNull::No)`; with a sink that fails, the sink's error is
returned unmodified. -/
theorem to_sql_sink_result_witness :
    (GeogPoint.toSql (fun _ => (.ok () : Except Unit Unit)) ⟨0, 0, none⟩
        = .ok IsNull.no ∧
      GeogPoint.toSql (fun _ => (.error () : Except Unit Unit)) ⟨0, 0, none⟩
        = .error ()) ∧
    (GeogPointZ.toSql (fun _ => (.ok () : Except Unit Unit)) ⟨0, 0, 0, none⟩
        = .ok IsNull.no ∧
      GeogPointZ.toSql (fun _ => (.error () : Except Unit Unit)) ⟨0, 0, 0, none⟩
        = .error ()) ∧
    (GeogLineString.toSql (fun _ => (.ok () : Except Unit Unit)) ⟨[], none⟩
        = .ok IsNull.no ∧
      GeogLineString.toSql (fun _ => (.error () : Except Unit Unit)) ⟨[], none⟩
        = .error ()) ∧
    (GeogLineStringZ.toSql (fun _ => (.ok () : Except Unit Unit)) ⟨[], none⟩
        = .ok IsNull.no ∧
      GeogLineStringZ.toSql (fun _ => (.error () : Except Unit Unit)) ⟨[], none⟩
        = .error ()) ∧
    (GeogPolygon.toSql (fun _ => (.ok () : Except Unit Unit)) ⟨[], none⟩
        = .ok IsNull.no ∧
      GeogPolygon.toSql (fun _ => (.error () : Except Unit Unit)) ⟨[], none⟩
        = .error ()) :=
  ⟨⟨((to_sql_sink_result Unit).1 (fun _ => .ok ()) ⟨0, 0, none⟩).1 rfl,
    ((to_sql_sink_result Unit).1 (fun _ => .error ()) ⟨0, 0, none⟩).2 () rfl⟩,
   ⟨((to_sql_sink_result Unit).2.1 (fun _ => .ok ()) ⟨0, 0, 0, none⟩).1 rfl,
    ((to_sql_sink_result Unit).2.1 (fun _ => .error ()) ⟨0, 0, 0, none⟩).2 () rfl⟩,
   ⟨((to_sql_sink_result Unit).2.2.1 (fun _ => .ok ()) ⟨[], none⟩).1 rfl,
    ((to_sql_sink_result Unit).2.2.1 (fun _ => .error ()) ⟨[], none⟩).2 () rfl⟩,
   ⟨((to_sql_sink_result Unit).2.2.2.1 (fun _ => .ok ()) ⟨[], none⟩).1 rfl,
    ((to_sql_sink_result Unit).2.2.2.1 (fun _ => .error ()) ⟨[], none⟩).2 () rfl⟩,
   ⟨((to_sql_sink_result Unit).2.2.2.2 (fun _ => .ok ()) ⟨[], none⟩).1 rfl,
    ((to_sql_sink_result Unit).2.2.2.2 (fun _ => .error ()) ⟨[], none⟩).2 () rfl⟩⟩
